import Mathlib

/-!
Verification of the artifact acquisition and verification engine of the
icy-launcher repository. The Rust sources under src/ are shallowly embedded:
byte contents become lists of naturals, filesystem state at a single path
becomes an optional content value, network transfers become explicit outcome
parameters, and the hash implementations from the external sha1/sha2 crates
become abstract digest-algorithm parameters. Each definition mirrors one
source function; theorems settle the claims about them.
-/

namespace IcyLauncher

/-- Byte strings are modelled as lists of naturals (each a byte value). -/
abbrev Content := List Nat

/-- Boolean test that the first list is a prefix of the second
(used to implement substring search, mirroring the str contains calls). -/
def isPrefixB : List Char → List Char → Bool
  | [], _ => true
  | _ :: _, [] => false
  | a :: xs, b :: ys => a = b && isPrefixB xs ys

/-- Boolean test that `sub` occurs as a contiguous sublist of the second list. -/
def isInfixB (sub : List Char) : List Char → Bool
  | [] => sub.isEmpty
  | l@(_ :: t) => isPrefixB sub l || isInfixB sub t

/-- Rust str contains: `s.contains(sub)` for the ASCII markers used here. -/
def containsSubstr (s sub : String) : Bool := isInfixB sub.data s.data

/-- Rust str ends_with: `s.ends_with(suf)`, via reversed prefix test so that
it evaluates by kernel reduction. -/
def endsWithB (s suf : String) : Bool := isPrefixB suf.data.reverse s.data.reverse

/-! ## HashVerifier (src/util/mod.rs: calc_hash, check_hash)

The sha1/sha2 crates are external dependencies; a digest algorithm is
modelled abstractly as an initial state, a chunkwise update, and a
finalizer producing the digest bytes. -/

/-- An abstract streaming digest algorithm (the Digest trait of the digest crate). -/
structure DigestAlg where
  S : Type
  init : S
  upd : S → Content → S
  fin : S → Content

/-- Lowercase hexadecimal digit for a value below 16
(base16ct lower encoding). -/
def hexDigit (n : Nat) : Char :=
  if n < 10 then Char.ofNat (48 + n) else Char.ofNat (87 + n)

/-- One byte as two lowercase hex characters. -/
def hexByte (b : Nat) : List Char := [hexDigit (b / 16 % 16), hexDigit (b % 16)]

/-- base16ct lower encode_string: bytes to a lowercase hex string. -/
def hexLower (bs : Content) : String := String.mk (bs.map hexByte).flatten

/-- Fuel-indexed chunk splitter; structural recursion on the fuel so that it
evaluates by kernel reduction. Each step takes one 1024-byte chunk, so any
fuel at least the list length is enough. -/
def chunksAux : Nat → Content → List Content
  | _, [] => []
  | 0, _ :: _ => []
  | f + 1, a :: l => ((a :: l).take 1024) :: chunksAux f ((a :: l).drop 1024)

/-- The 1024-byte read chunks of the calc_hash read loop. -/
def chunks1024 (l : Content) : List Content := chunksAux l.length l

/-- src/util/mod.rs calc_hash: stream the source in 1024-byte chunks through
the digest state and lowercase-hex encode the finalized digest. -/
def calc_hash (A : DigestAlg) (data : Content) : String :=
  hexLower (A.fin ((chunks1024 data).foldl A.upd A.init))

/-- src/util/mod.rs check_hash: dispatch on the algorithm tag, then compare
the computed digest with the expected string. -/
def check_hash (sha1A sha256A : DigestAlg) (data : Content)
    (hash : String) (hash_function : String) : Except String Unit :=
  let digest : Except String String :=
    if hash_function = "sha1" then .ok (calc_hash sha1A data)
    else if hash_function = "sha256" then .ok (calc_hash sha256A data)
    else .error "unsupported hash function"
  match digest with
  | .error e => .error e
  | .ok d => if d ≠ hash then .error "hash mismatch" else .ok ()

/-! ## download_file (src/util/mod.rs lines 59-96) -/

/-- Result of a call that can return, fail, or panic (unwrap on None). -/
inductive Outcome where
  | ok : Outcome
  | err : String → Outcome
  | panicked : Outcome
deriving DecidableEq, Repr

/-- The outcome of the HTTP request plus the io copy into the open file:
either the full body arrives, the connection fails before any byte is
written, or the stream breaks after a partial write. -/
inductive Transfer where
  | success : Content → Transfer
  | connectFail : Transfer
  | midFail : Content → Transfer
deriving DecidableEq, Repr

/-- Observable result of download_file: the control-flow outcome, the content
at the FINAL path afterwards, whether a network fetch was attempted, and
whether any digest verification ran. -/
structure DFResult where
  outcome : Outcome
  fsFinal : Option Content
  fetched : Bool
  hashChecked : Bool
deriving DecidableEq, Repr

/-- src/util/mod.rs download_file: return immediately if the path exists;
otherwise create the parent, fetch into a NamedTempFile, optionally check the
hash (unwrapping both options), and only then rename onto the final path.
`fs0` is the content at the final path before the call (none = absent),
`hasParent` is whether path.parent() exists. -/
def download_file (sha1A sha256A : DigestAlg) (fs0 : Option Content)
    (hasParent : Bool) (t : Transfer)
    (hash : Option String) (hash_function : Option String) : DFResult :=
  match fs0 with
  | some c => ⟨.ok, some c, false, false⟩
  | none =>
    if !hasParent then ⟨.err "invalid path", none, false, false⟩
    else
      match t with
      | .connectFail => ⟨.err "transfer failed", none, true, false⟩
      | .midFail _ => ⟨.err "transfer failed", none, true, false⟩
      | .success body =>
        match hash with
        | none => ⟨.ok, some body, true, false⟩
        | some h =>
          match hash_function with
          | none => ⟨.panicked, none, true, false⟩
          | some f =>
            match check_hash sha1A sha256A body h f with
            | .error e => ⟨.err e, none, true, true⟩
            | .ok _ => ⟨.ok, some body, true, true⟩

/-! ## Minecraft assets (src/lib/minecraft_assets.rs)

Filesystem paths are modelled as lists of components relative to BASE_DIR. -/

/-- ASSETS_DIR = BASE_DIR.join("assets"). -/
def ASSETS_DIR : List String := ["assets"]

/-- OBJECTS_DIR = ASSETS_DIR.join("objects"). -/
def OBJECTS_DIR : List String := ASSETS_DIR ++ ["objects"]

/-- The assets download endpoint URL. -/
def ASSETS_DOWNLOAD_ENDPOINT : String := "https://resources.download.minecraft.net"

namespace Object

/-- Object::get_path: OBJECTS_DIR.join(&hash[..2]).join(&hash). -/
def get_path (hash : String) : List String :=
  OBJECTS_DIR ++ [hash.take 2, hash]

/-- Object::get_url: endpoint joined with "first-two-of-hash/hash". -/
def get_url (hash : String) : String :=
  ASSETS_DOWNLOAD_ENDPOINT ++ "/" ++ hash.take 2 ++ "/" ++ hash

/-- Object::download: create the parent directories, perform the HTTP call,
then File::create the FINAL path and stream the body into it. Returns the
call result together with the content left at the final path: a connect
failure happens before File::create (no file), a mid-stream failure leaves
the partial bytes in the already-created final file. -/
def download (t : Transfer) : Except String Unit × Option Content :=
  match t with
  | .success c => (.ok (), some c)
  | .connectFail => (.error "transfer failed", none)
  | .midFail p => (.error "transfer failed", some p)

end Object

/-- Result of one ensure pass over a single artifact: the call result, the
content at the artifact path afterwards, and how many network downloads
were performed. -/
structure EnsureResult where
  result : Except String Unit
  fs : Option Content
  fetches : Nat
deriving Repr

/-- The per-object body of AssetIndex::download_objects (and identically the
per-library body of LibrariesExt::download): if the path exists and the
recomputed digest differs, delete the file; if the path does not exist,
download; finally recheck the digest and bail on mismatch. `hashOf` is the
recomputed SHA-1 hex digest of a content, `expected` the digest expected by
the index entry, `t` the transfer outcome of the (at most one) download. -/
def ensureObject (hashOf : Content → String) (expected : String)
    (t : Transfer) (fs0 : Option Content) : EnsureResult :=
  -- if path.exists() && !object.check_hash()? then remove_file(path)
  let fs1 : Option Content :=
    match fs0 with
    | some c => if hashOf c = expected then some c else none
    | none => none
  -- if !path.exists() then object.download()?
  match fs1 with
  | some c =>
    -- no download; final check_hash on the kept file
    if hashOf c = expected then ⟨.ok (), some c, 0⟩
    else ⟨.error "Failed to download object", some c, 0⟩
  | none =>
    match Object.download t with
    | (.error e, fs2) => ⟨.error e, fs2, 1⟩
    | (.ok _, fs2) =>
      match fs2 with
      | some c => if hashOf c = expected then ⟨.ok (), some c, 1⟩
                  else ⟨.error "Failed to download object", some c, 1⟩
      | none => ⟨.error "file not found", none, 1⟩

/-! ## download_and_unpack (src/util/mod.rs lines 144-193)

The filesystem side effects are recorded as an ordered trace. -/

/-- One observable side effect of download_and_unpack, in program order. -/
inductive Eff where
  | createDirAll : Eff
  | fetchUrl : Eff
  | writeTemp : Eff
  | extractZip : Eff
  | unpackTarGz : Eff
deriving DecidableEq, Repr

/-- src/util/mod.rs download_and_unpack: return if the path exists; create
the parent directories; fetch the url into an anonymous temp file; optionally
check the hash; then dispatch on the URL suffix: ".zip" to ZipArchive
extraction, ".tar.gz" to GzDecoder plus tar unpack, anything else bails with
the unsupported-archive-format error. Returns the result and the effect
trace. -/
def download_and_unpack (sha1A sha256A : DigestAlg) (url : String)
    (pathExists : Bool) (hasParent : Bool) (t : Transfer)
    (hash : Option String) (hash_function : Option String) :
    Outcome × List Eff :=
  if pathExists then (.ok, [])
  else if !hasParent then (.err "invalid path", [])
  else
    match t with
    | .connectFail => (.err "transfer failed", [.createDirAll, .fetchUrl])
    | .midFail _ => (.err "transfer failed", [.createDirAll, .fetchUrl])
    | .success body =>
      let pre : List Eff := [.createDirAll, .fetchUrl, .writeTemp]
      let afterHash : Outcome :=
        match hash with
        | none => .ok
        | some h =>
          match hash_function with
          | none => .panicked
          | some f =>
            match check_hash sha1A sha256A body h f with
            | .error e => .err e
            | .ok _ => .ok
      match afterHash with
      | .ok =>
        if endsWithB url ".zip" then (.ok, pre ++ [.extractZip])
        else if endsWithB url ".tar.gz" then (.ok, pre ++ [.unpackTarGz])
        else (.err "unsupported archive format", pre)
      | other => (other, pre)

/-! ## Download orchestrator (src/pages/download.rs)

The item type of the batch is left as a type parameter, and progress values
(f32 in the source) are carried as an arbitrary value of a parameter type
with a distinguished zero, since the state machine never computes on them. -/

/-- The Progress events delivered to Download::update. -/
inductive Progress (P : Type) where
  | started : Progress P
  | advanced : P → Progress P
  | finished : Progress P
  | errored : Progress P

/-- The State enum of pages/download.rs. -/
inductive DlState (P : Type) (α : Type) where
  | idle : DlState P α
  | downloading : P → List α → DlState P α
  | finished : DlState P α
  | errored : DlState P α

namespace Download

/-- Download::start: from Idle, Finished or Errored move to Downloading with
progress 0 and the given items; in any other state do nothing. `z` is the
0.0 literal of the progress type. -/
def start {P α : Type} (z : P) (s : DlState P α) (items : List α) : DlState P α :=
  match s with
  | .idle => .downloading z items
  | .finished => .downloading z items
  | .errored => .downloading z items
  | .downloading p its => .downloading p its

/-- Download::update on a DownloadProgressed message: only acts when the
state is Downloading; Started resets progress, Advanced stores the
percentage, Finished and Errored move to the terminal states. -/
def update {P α : Type} (z : P) (s : DlState P α) (m : Progress P) : DlState P α :=
  match s with
  | .downloading _ its =>
    match m with
    | .started => .downloading z its
    | .advanced p => .downloading p its
    | .finished => .finished
    | .errored => .errored
  | other => other

end Download

/-! ## Library platform filtering (src/lib/minecraft_libraries.rs) -/

/-- The four (target_os, target_arch) pairs for which the crate compiles a
NATIVES_STRING constant. -/
inductive Platform where
  | linux_x86_64 : Platform
  | macos_x86_64 : Platform
  | macos_aarch64 : Platform
  | windows_x86_64 : Platform
deriving DecidableEq, Repr

/-- The cfg-selected NATIVES_STRING constant. -/
def NATIVES_STRING : Platform → String
  | .linux_x86_64 => "natives-linux"
  | .macos_x86_64 => "natives-macos"
  | .macos_aarch64 => "natives-macos-arm64"
  | .windows_x86_64 => "natives-windows"

/-- Whether the platform target_arch is x86_64. -/
def isX86_64 : Platform → Bool
  | .macos_aarch64 => false
  | _ => true

namespace Artifact

/-- Artifact::is_valid: reject a path containing "natives" without the
platform NATIVES_STRING; under cfg(not(x86_64)) reject a path containing
"x86_64"; under cfg(not(aarch64)) reject a path containing "aarch_64";
otherwise accept. -/
def is_valid (p : Platform) (path : String) : Bool :=
  if containsSubstr path "natives" && !containsSubstr path (NATIVES_STRING p) then
    false
  else if !isX86_64 p && containsSubstr path "x86_64" then
    false
  else if isX86_64 p && containsSubstr path "aarch_64" then
    false
  else
    true

end Artifact

/-- A platform rule as described by the data model: an allow/disallow action
guarded by optional os-name and os-architecture conditions. -/
structure Rule where
  allow : Bool
  osName : Option String
  osArch : Option String

/-- Modelled from the spec: src/lib/minecraft_rules.rs (is_rule_list_valid)
is not part of the snapshot; per the data-model section a rule list is
evaluated left-to-right with last-match-wins, defaulting to allow when no
rule matches. `osName`/`osArch` are the current platform tokens. -/
def is_rule_list_valid (osName osArch : String) (rules : List Rule) : Bool :=
  rules.foldl
    (fun acc r =>
      let ruleApplies :=
        (match r.osName with | none => true | some n => n = osName) &&
        (match r.osArch with | none => true | some a => a = osArch)
      if ruleApplies then r.allow else acc)
    true

namespace Library

/-- Library::is_valid: false when the artifact path is rejected; otherwise
when a rule list is present defer to is_rule_list_valid; otherwise true. -/
def is_valid (p : Platform) (osName osArch : String)
    (path : String) (rules : Option (List Rule)) : Bool :=
  if !Artifact.is_valid p path then false
  else
    match rules with
    | some rs => is_rule_list_valid osName osArch rs
    | none => true

end Library

/-! ## Runtime manager (src/lib/runtime_manager.rs) -/

/-- The three supported target operating systems. -/
inductive OS where
  | windows : OS
  | macos : OS
  | linux : OS
deriving DecidableEq, Repr

/-- The cfg-selected executable sub-path appended below the runtime
directory: bin/java.exe on Windows, Contents/Home/bin/java on macOS,
bin/java on Linux. -/
def javaSubpath : OS → List String
  | .windows => ["bin", "java.exe"]
  | .macos => ["Contents", "Home", "bin", "java"]
  | .linux => ["bin", "java"]

/-- RUNTIMES_DIR = BASE_DIR.join("runtimes"). -/
def RUNTIMES_DIR : List String := ["runtimes"]

/-- runtime_manager::get_java_path: scan the RUNTIMES_DIR entries in order
for the first whose name contains the decimal java version as a substring;
bail with "No runtime found" when none matches, else append the
cfg-selected executable sub-path to that entry path. -/
def get_java_path (os : OS) (entries : List String) (java_version : Int) :
    Except String (List String) :=
  match entries.find? (fun name => containsSubstr name (toString java_version)) with
  | none => .error "No runtime found"
  | some name => .ok (RUNTIMES_DIR ++ [name] ++ javaSubpath os)

/-! ## Shared concrete instances for witnesses -/

/-- A digest algorithm that ignores its input and always finalizes to the
given byte string; used to instantiate the abstract algorithm parameters at
concrete inputs. -/
def constAlg (out : Content) : DigestAlg :=
  { S := Unit, init := (), upd := fun _ _ => (), fin := fun _ => out }

/-! ## Theorems for the claims -/

/-- Claim C4: the derived local object path is the objects directory joined
with the first two hex characters of the digest as the directory component
and the full hex digest as the file name, and the remote URL uses the same
two-character shard prefix; both are functions of the digest alone. -/
theorem object_sharding_correct (h : String) :
    (Object.get_path h).dropLast = OBJECTS_DIR ++ [h.take 2] ∧
    (Object.get_path h).getLast? = some h ∧
    Object.get_url h = ASSETS_DOWNLOAD_ENDPOINT ++ "/" ++ h.take 2 ++ "/" ++ h := by
  refine ⟨rfl, rfl, rfl⟩

/-- Claim C5: start moves to Downloading exactly from Idle, Finished and
Errored and is a no-op while Downloading; no progress event leaves the
terminal Finished and Errored states (nor Idle), so terminal states are
exited only by a new start call. -/
theorem orchestrator_state_machine (P α : Type) (z p : P)
    (items its : List α) (m : Progress P) :
    Download.start z (DlState.idle : DlState P α) items = DlState.downloading z items ∧
    Download.start z (DlState.finished : DlState P α) items = DlState.downloading z items ∧
    Download.start z (DlState.errored : DlState P α) items = DlState.downloading z items ∧
    Download.start z (DlState.downloading p its) items = DlState.downloading p its ∧
    Download.update z (DlState.finished : DlState P α) m = DlState.finished ∧
    Download.update z (DlState.errored : DlState P α) m = DlState.errored ∧
    Download.update z (DlState.idle : DlState P α) m = DlState.idle := by
  refine ⟨rfl, rfl, rfl, rfl, rfl, rfl, rfl⟩

/-- Claim C8: an artifact path is rejected exactly when it contains the
marker "natives" without the platform natives token, or an architecture
classifier that does not match the running architecture; a library without
rules is applicable exactly when its artifact path is accepted. -/
theorem platform_path_filtering (p : Platform) (path osName osArch : String) :
    Artifact.is_valid p path =
      (!(containsSubstr path "natives" && !containsSubstr path (NATIVES_STRING p)) &&
       !(!isX86_64 p && containsSubstr path "x86_64") &&
       !(isX86_64 p && containsSubstr path "aarch_64")) ∧
    Library.is_valid p osName osArch path none = Artifact.is_valid p path := by
  constructor
  · cases h1 : containsSubstr path "natives" <;>
      cases h2 : containsSubstr path (NATIVES_STRING p) <;>
      cases h3 : containsSubstr path "x86_64" <;>
      cases h4 : containsSubstr path "aarch_64" <;>
      cases h5 : isX86_64 p <;>
      simp [Artifact.is_valid, h1, h2, h3, h4, h5]
  · cases hA : Artifact.is_valid p path <;> simp [Library.is_valid, hA]

/-- Claim C9: get_java_path fails with the runtime-not-found error exactly
when no entry name of the runtimes directory contains the decimal version
as a substring, and otherwise returns the first matching entry with the
OS-specific executable sub-path appended. -/
theorem get_java_path_resolution (os : OS) (entries : List String) (v : Int) :
    (get_java_path os entries v = .error "No runtime found" ↔
      ∀ name ∈ entries, containsSubstr name (toString v) = false) ∧
    (∀ name, entries.find? (fun n => containsSubstr n (toString v)) = some name →
      get_java_path os entries v = .ok (RUNTIMES_DIR ++ [name] ++ javaSubpath os)) := by
  constructor
  · cases hf : entries.find? (fun n => containsSubstr n (toString v)) with
    | none =>
      simp only [get_java_path, hf]
      rw [List.find?_eq_none] at hf
      simpa using hf
    | some name =>
      simp only [get_java_path, hf]
      constructor
      · intro hcontra; cases hcontra
      · intro hall
        have hmem := List.mem_of_find?_eq_some hf
        have hp := List.find?_some hf
        have := hall name hmem
        rw [this] at hp
        cases hp
  · intro name hf
    simp [get_java_path, hf]

/-- Witness for claim C9 at a concrete runtimes listing. -/
theorem get_java_path_resolution_witness :
    get_java_path .linux ["jdk-8u302", "temurin-17-jre"] 17 =
      .ok ["runtimes", "temurin-17-jre", "bin", "java"] ∧
    get_java_path .windows ["jdk-8u302"] 17 = .error "No runtime found" := by
  constructor
  · exact (get_java_path_resolution .linux ["jdk-8u302", "temurin-17-jre"] 17).2
      "temurin-17-jre" (by decide)
  · exact (get_java_path_resolution .windows ["jdk-8u302"] 17).1.mpr (by decide)

/-- Claim C7: check_hash routes the tag "sha1" to the SHA-1 algorithm and
"sha256" to the SHA-256 algorithm, fails with the unsupported-algorithm
error on any other tag, fails with the hash-mismatch error when the
computed lowercase hex digest differs from the expected string, and
succeeds on a match. -/
theorem check_hash_dispatch (A1 A2 : DigestAlg) (data : Content) (h : String) :
    (check_hash A1 A2 data h "sha1" =
      if calc_hash A1 data = h then .ok () else .error "hash mismatch") ∧
    (check_hash A1 A2 data h "sha256" =
      if calc_hash A2 data = h then .ok () else .error "hash mismatch") ∧
    (∀ f, f ≠ "sha1" → f ≠ "sha256" →
      check_hash A1 A2 data h f = .error "unsupported hash function") := by
  refine ⟨?_, ?_, ?_⟩
  · by_cases hd : calc_hash A1 data = h <;> simp [check_hash, hd]
  · by_cases hd : calc_hash A2 data = h <;> simp [check_hash, hd]
  · intro f hf1 hf2
    simp [check_hash, hf1, hf2]

/-- Witness for claim C7 at concrete algorithms, data and tags. -/
theorem check_hash_dispatch_witness :
    check_hash (constAlg [0]) (constAlg [255]) [7] "00" "sha1" = .ok () ∧
    check_hash (constAlg [0]) (constAlg [255]) [7] "00" "sha256" = .error "hash mismatch" ∧
    check_hash (constAlg [0]) (constAlg [255]) [7] "00" "md5" = .error "unsupported hash function" := by
  refine ⟨?_, ?_, ?_⟩
  · rw [(check_hash_dispatch (constAlg [0]) (constAlg [255]) [7] "00").1,
      if_pos (by decide)]
  · rw [(check_hash_dispatch (constAlg [0]) (constAlg [255]) [7] "00").2.1,
      if_neg (by decide)]
  · exact (check_hash_dispatch (constAlg [0]) (constAlg [255]) [7] "00").2.2 "md5"
      (by decide) (by decide)

/-- Claim C1: when the local file exists but its recomputed digest differs
from the expected one, the ensure pass deletes it and downloads exactly
once, returning success when the fetched content matches and the
integrity-mismatch error otherwise; no input ever causes more than one
download per pass. -/
theorem ensure_corruption_recovery (hashOf : Content → String) (expected : String)
    (c body : Content) (hc : hashOf c ≠ expected) :
    (ensureObject hashOf expected (.success body) (some c)).fetches = 1 ∧
    (hashOf body = expected →
      (ensureObject hashOf expected (.success body) (some c)).result = .ok () ∧
      (ensureObject hashOf expected (.success body) (some c)).fs = some body) ∧
    (hashOf body ≠ expected →
      (ensureObject hashOf expected (.success body) (some c)).result =
        .error "Failed to download object") ∧
    (∀ (t : Transfer) (fs0 : Option Content),
      (ensureObject hashOf expected t fs0).fetches ≤ 1) := by
  refine ⟨?_, ?_, ?_, ?_⟩
  · by_cases hb : hashOf body = expected <;>
      simp [ensureObject, Object.download, hc, hb]
  · intro hb
    simp [ensureObject, Object.download, hc, hb]
  · intro hb
    simp [ensureObject, Object.download, hc, hb]
  · intro t fs0
    cases fs0 with
    | none =>
      cases t with
      | success c2 =>
        simp only [ensureObject, Object.download]
        split <;> simp
      | connectFail => simp [ensureObject, Object.download]
      | midFail q => simp [ensureObject, Object.download]
    | some c0 =>
      by_cases h0 : hashOf c0 = expected
      · simp [ensureObject, h0]
      · cases t with
        | success c2 =>
          simp only [ensureObject, Object.download, h0, if_false]
          split <;> simp
        | connectFail => simp [ensureObject, Object.download, h0]
        | midFail q => simp [ensureObject, Object.download, h0]

/-- Witness for claim C1: a corrupt existing file is replaced by one
successful re-download. -/
theorem ensure_corruption_recovery_witness :
    (ensureObject (fun c => if c = [1] then "aa" else "bb") "aa"
      (.success [1]) (some [2])).fetches = 1 ∧
    (ensureObject (fun c => if c = [1] then "aa" else "bb") "aa"
      (.success [1]) (some [2])).result = .ok () := by
  have h := ensure_corruption_recovery (fun c => if c = [1] then "aa" else "bb")
    "aa" [2] [1] (by decide)
  exact ⟨h.1, (h.2.1 (by decide)).1⟩

/-- Counterexample to claim C2 as stated: Object::download creates the final
path before streaming, so a transfer that breaks mid-stream leaves the
partial bytes at the final path. -/
theorem object_download_partial_file_cex :
    (Object.download (.midFail [1, 2])).1 = .error "transfer failed" ∧
    (Object.download (.midFail [1, 2])).2 = some [1, 2] :=
  ⟨rfl, rfl⟩

/-- Claim C2 amended: util::download_file stages the downloaded bytes in a
NamedTempFile and renames onto the final path only after full success, so a
failing call (connection failure, mid-stream break, missing parent, hash
mismatch, or the unwrap panic) leaves the content at the final path exactly
as it was before the call — in particular no file at all when none was
there — and a successful verified fetch does place the full body there; the
asset-style Object::download instead creates the final path directly and
streams into it, so a mid-stream failure leaves the partial bytes at the
final path. -/
theorem atomic_replace_amended (A1 A2 : DigestAlg) (fs0 : Option Content)
    (hasParent : Bool) (t : Transfer) (hash fn : Option String)
    (body p : Content) (h f : String) :
    ((download_file A1 A2 fs0 hasParent t hash fn).outcome ≠ .ok →
      (download_file A1 A2 fs0 hasParent t hash fn).fsFinal = fs0) ∧
    (check_hash A1 A2 body h f = .ok () →
      download_file A1 A2 none true (.success body) (some h) (some f) =
        ⟨.ok, some body, true, true⟩) ∧
    (Object.download (.midFail p)).2 = some p := by
  refine ⟨?_, ?_, rfl⟩
  · intro hne
    cases fs0 with
    | some c => rfl
    | none =>
      cases t with
      | connectFail => by_cases hp : hasParent <;> simp [download_file, hp]
      | midFail q => by_cases hp : hasParent <;> simp [download_file, hp]
      | success b =>
        by_cases hp : hasParent
        · cases hash with
          | none => cases hne (by simp [download_file, hp])
          | some hh =>
            cases fn with
            | none => simp [download_file, hp]
            | some ff =>
              cases hch : check_hash A1 A2 b hh ff with
              | error e => simp [download_file, hp, hch]
              | ok u => cases hne (by simp [download_file, hp, hch])
        · simp [download_file, hp]
  · intro hch
    simp [download_file, hch]

/-- Witness for the amended claim C2: a connection failure leaves the final
path as it was (absent), while a successful verified fetch places the body
there. -/
theorem atomic_replace_amended_witness :
    (download_file (constAlg [0]) (constAlg [0]) none true .connectFail
      (some "aa") (some "sha1")).fsFinal = none ∧
    download_file (constAlg [0]) (constAlg [0]) none true (.success [5])
      (some "00") (some "sha1") = ⟨.ok, some [5], true, true⟩ := by
  constructor
  · exact (atomic_replace_amended (constAlg [0]) (constAlg [0]) none true
      .connectFail (some "aa") (some "sha1") [5] [] "00" "sha1").1 (by decide)
  · exact (atomic_replace_amended (constAlg [0]) (constAlg [0]) none true
      .connectFail (some "aa") (some "sha1") [5] [] "00" "sha1").2.1
      (by rw [(check_hash_dispatch (constAlg [0]) (constAlg [0]) [5] "00").1,
        if_pos (by decide)])

/-- Counterexample to claim C3 as stated: with the file already present at
the final path but holding content whose SHA-1 digest differs from the
expected one, download_file returns success immediately with no digest
verification at all (and no fetch) instead of verifying the digest. -/
theorem download_file_fastpath_no_verify_cex :
    download_file (constAlg [255]) (constAlg [255]) (some [7]) true
      (.success [7]) (some "00") (some "sha1") =
      ⟨.ok, some [7], false, false⟩ ∧
    calc_hash (constAlg [255]) [7] ≠ "00" := by
  exact ⟨rfl, by decide⟩

/-- Claim C3 amended: whenever the local path already holds a file,
download_file returns immediately with no network access and no digest
verification, whatever the content; consequently any call that succeeded
leaves content at the path and a second call performs zero fetches and
returns the same content unchanged. -/
theorem download_file_fastpath_amended (A1 A2 : DigestAlg) (fs0 : Option Content)
    (hasParent hp2 : Bool) (t t2 : Transfer) (hash fn hash2 fn2 : Option String) :
    (∀ c, fs0 = some c →
      download_file A1 A2 fs0 hasParent t hash fn = ⟨.ok, some c, false, false⟩) ∧
    ((download_file A1 A2 fs0 hasParent t hash fn).outcome = .ok →
      download_file A1 A2 (download_file A1 A2 fs0 hasParent t hash fn).fsFinal
          hp2 t2 hash2 fn2 =
        ⟨.ok, (download_file A1 A2 fs0 hasParent t hash fn).fsFinal, false, false⟩) := by
  constructor
  · intro c hc
    subst hc
    rfl
  · intro hok
    have hsome : ∃ d, (download_file A1 A2 fs0 hasParent t hash fn).fsFinal = some d := by
      cases fs0 with
      | some c => exact ⟨c, rfl⟩
      | none =>
        by_cases hp : hasParent
        · cases t with
          | connectFail => exact absurd hok (by simp [download_file, hp])
          | midFail q => exact absurd hok (by simp [download_file, hp])
          | success body =>
            cases hash with
            | none => exact ⟨body, by simp [download_file, hp]⟩
            | some h =>
              cases fn with
              | none => exact absurd hok (by simp [download_file, hp])
              | some f =>
                cases hch : check_hash A1 A2 body h f with
                | error e => exact absurd hok (by simp [download_file, hp, hch])
                | ok u => exact ⟨body, by simp [download_file, hp, hch]⟩
        · exact absurd hok (by simp [download_file, hp])
    obtain ⟨d, hd⟩ := hsome
    rw [hd]
    rfl

/-- Witness for the amended claim C3: with a file already present the call
is an immediate no-fetch success, and a second call after a successful
fetch is also an immediate no-fetch success. -/
theorem download_file_fastpath_amended_witness :
    download_file (constAlg [0]) (constAlg [0]) (some [9]) true
      (.success [1]) (some "00") (some "sha1") = ⟨.ok, some [9], false, false⟩ ∧
    download_file (constAlg [0]) (constAlg [0])
        (download_file (constAlg [0]) (constAlg [0]) none true
          (.success [1]) none none).fsFinal true .connectFail none none =
      ⟨.ok, (download_file (constAlg [0]) (constAlg [0]) none true
          (.success [1]) none none).fsFinal, false, false⟩ := by
  constructor
  · exact (download_file_fastpath_amended (constAlg [0]) (constAlg [0]) (some [9])
      true true (.success [1]) .connectFail (some "00") (some "sha1") none none).1
      [9] rfl
  · exact (download_file_fastpath_amended (constAlg [0]) (constAlg [0]) none
      true true (.success [1]) .connectFail none none none none).2 (by decide)

/-- Counterexample to claim C6 as stated: on an unsupported extension
download_and_unpack does fail with the unsupported-archive-format error, but
only after creating the parent directories, fetching the URL and writing
the bytes to a temp file, so the filesystem has been touched before the
failure. -/
theorem download_and_unpack_touches_fs_cex :
    download_and_unpack (constAlg []) (constAlg []) "https://example.com/pkg.xyz"
      false true (.success [1]) none none =
      (.err "unsupported archive format", [.createDirAll, .fetchUrl, .writeTemp]) ∧
    Eff.createDirAll ∈ (download_and_unpack (constAlg []) (constAlg [])
      "https://example.com/pkg.xyz" false true (.success [1]) none none).2 := by
  refine ⟨by decide, by decide⟩

/-- Claim C6 amended: with the destination absent and the transfer
delivered, a URL ending in ".zip" is routed to ZIP extraction, a URL ending
in ".tar.gz" is routed to gzip-then-tar extraction, and any other extension
fails with the unsupported-archive-format error — but in every case only
after the parent directory has been created, the URL fetched and the bytes
written to a temp file; the error path performs no extraction. -/
theorem extraction_dispatch_amended (A1 A2 : DigestAlg) (url : String) (body : Content) :
    (endsWithB url ".zip" = true →
      download_and_unpack A1 A2 url false true (.success body) none none =
        (.ok, [.createDirAll, .fetchUrl, .writeTemp, .extractZip])) ∧
    (endsWithB url ".zip" = false → endsWithB url ".tar.gz" = true →
      download_and_unpack A1 A2 url false true (.success body) none none =
        (.ok, [.createDirAll, .fetchUrl, .writeTemp, .unpackTarGz])) ∧
    (endsWithB url ".zip" = false → endsWithB url ".tar.gz" = false →
      download_and_unpack A1 A2 url false true (.success body) none none =
        (.err "unsupported archive format", [.createDirAll, .fetchUrl, .writeTemp])) := by
  refine ⟨?_, ?_, ?_⟩
  · intro hz
    simp [download_and_unpack, hz]
  · intro hz ht
    simp [download_and_unpack, hz, ht]
  · intro hz ht
    simp [download_and_unpack, hz, ht]

/-- Witness for the amended claim C6 on the three concrete URL shapes. -/
theorem extraction_dispatch_amended_witness :
    download_and_unpack (constAlg []) (constAlg []) "https://example.com/a.zip"
      false true (.success [1]) none none =
      (.ok, [.createDirAll, .fetchUrl, .writeTemp, .extractZip]) ∧
    download_and_unpack (constAlg []) (constAlg []) "https://example.com/a.tar.gz"
      false true (.success [1]) none none =
      (.ok, [.createDirAll, .fetchUrl, .writeTemp, .unpackTarGz]) ∧
    download_and_unpack (constAlg []) (constAlg []) "https://example.com/a.pack"
      false true (.success [1]) none none =
      (.err "unsupported archive format", [.createDirAll, .fetchUrl, .writeTemp]) := by
  refine ⟨?_, ?_, ?_⟩
  · exact (extraction_dispatch_amended (constAlg []) (constAlg [])
      "https://example.com/a.zip" [1]).1 (by decide)
  · exact (extraction_dispatch_amended (constAlg []) (constAlg [])
      "https://example.com/a.tar.gz" [1]).2.1 (by decide) (by decide)
  · exact (extraction_dispatch_amended (constAlg []) (constAlg [])
      "https://example.com/a.pack" [1]).2.2 (by decide) (by decide)

/-- Counterexample to claim C10 as stated: with the destination absent, a
digest supplied and no algorithm tag, a call whose network fetch fails
returns a transfer error without reaching the unwrap, so not every such
call panics. -/
theorem download_file_missing_tag_no_panic_cex :
    download_file (constAlg []) (constAlg []) none true .connectFail
      (some "aa") none =
      ⟨.err "transfer failed", none, true, false⟩ := rfl

/-- Claim C10 amended: when the destination is absent, a digest is supplied
without an algorithm tag and the fetch succeeds, download_file panics at the
unwrap of the algorithm tag; under the precondition that a tag accompanies
every supplied digest no input panics, so the function is total exactly
under that precondition. -/
theorem download_file_panic_amended (A1 A2 : DigestAlg) (body : Content)
    (h : String) (fs0 : Option Content) (hasParent : Bool) (t : Transfer)
    (hash fn : Option String) :
    (download_file A1 A2 none true (.success body) (some h) none).outcome =
      .panicked ∧
    ((hash.isSome → fn.isSome) →
      (download_file A1 A2 fs0 hasParent t hash fn).outcome ≠ .panicked) := by
  constructor
  · rfl
  · intro hpre
    cases fs0 with
    | some c => simp [download_file]
    | none =>
      by_cases hp : hasParent
      · cases t with
        | connectFail => simp [download_file, hp]
        | midFail q => simp [download_file, hp]
        | success b =>
          cases hash with
          | none => simp [download_file, hp]
          | some hh =>
            cases fn with
            | none => simp at hpre
            | some f =>
              cases hch : check_hash A1 A2 b hh f with
              | error e => simp [download_file, hp, hch]
              | ok u => simp [download_file, hp, hch]
      · simp [download_file, hp]

/-- Witness for the amended claim C10: the panic at a concrete successful
fetch, and absence of panic when the tag accompanies the digest. -/
theorem download_file_panic_amended_witness :
    (download_file (constAlg []) (constAlg []) none true (.success [1])
      (some "aa") none).outcome = .panicked ∧
    (download_file (constAlg []) (constAlg []) none true (.success [1])
      (some "aa") (some "sha1")).outcome ≠ .panicked := by
  constructor
  · exact (download_file_panic_amended (constAlg []) (constAlg []) [1] "aa"
      none true (.success [1]) (some "aa") none).1
  · exact (download_file_panic_amended (constAlg []) (constAlg []) [1] "aa"
      none true (.success [1]) (some "aa") (some "sha1")).2 (by decide)

end IcyLauncher
